import Mathlib

/-!
# Verification of tokenwatch resilience primitives

Shallow embedding of the core of the `tokenwatch` repository:
the circuit breaker (`pkg/utils/circuit_breaker.go`), the retry/backoff
HTTP wrapper (`RateLimitedClient.DoWithContext`), the in-memory response
cache and cache-key construction (`pkg/providers/openai.go`), the
paginated fetch loop of `GetUsage`/`GetCosts` (`pkg/providers/provider.go`)
and the consumption aggregation (`pkg/models/consumption.go`).

Modelling conventions:
* Go `time.Time` values are modelled as `Int` (an abstract clock reading);
  each operation that reads `time.Now()` takes the current instant `now`
  as an explicit argument.  `time.Since(t) > d` becomes `now - t > d`.
* Go errors are modelled as `Option String` (`none` = nil error) or as
  explicit error inductives where the error structure matters.
* Go maps whose iteration order the code observes are modelled by the
  iteration order itself (a list of key/value pairs): Go leaves that order
  unspecified and randomizes it, so any list ordering of the entries is a
  possible iteration.
-/

/-! ## Circuit breaker (`pkg/utils/circuit_breaker.go`) -/

/-- `CircuitState` from `circuit_breaker.go`: Closed / Open / HalfOpen. -/
inductive CircuitState where
  | stateClosed : CircuitState
  | stateOpen : CircuitState
  | stateHalfOpen : CircuitState
deriving DecidableEq, Repr

/-- The `CircuitBreaker` struct.  The mutex is dropped (we model the
single-threaded sequential semantics of the critical section); the field
`halfOpenRequests` is kept although the Go code never reads it. -/
structure CircuitBreaker where
  state : CircuitState
  failures : Nat
  successes : Nat
  lastFailureTime : Int
  maxFailures : Nat
  resetTimeout : Int
  halfOpenRequests : Nat
deriving DecidableEq, Repr

/-- `NewCircuitBreaker(maxFailures, resetTimeout)`: starts Closed with the
counters at their zero values (Go zero time modelled as instant 0). -/
def NewCircuitBreaker (maxFailures : Nat) (resetTimeout : Int) : CircuitBreaker :=
  { state := CircuitState.stateClosed
    failures := 0
    successes := 0
    lastFailureTime := 0
    maxFailures := maxFailures
    resetTimeout := resetTimeout
    halfOpenRequests := 1 }

/-- `recordFailure`: increments `failures`, stamps `lastFailureTime`, and
opens the circuit from Closed when the threshold is reached, or from
HalfOpen on any failure. -/
def CircuitBreaker.recordFailure (cb : CircuitBreaker) (now : Int) : CircuitBreaker :=
  let cb1 := { cb with failures := cb.failures + 1, lastFailureTime := now }
  match cb1.state with
  | CircuitState.stateClosed =>
      if cb1.failures ≥ cb1.maxFailures then
        { cb1 with state := CircuitState.stateOpen }
      else cb1
  | CircuitState.stateHalfOpen => { cb1 with state := CircuitState.stateOpen }
  | CircuitState.stateOpen => cb1

/-- `recordSuccess`: increments `successes`; a success in HalfOpen closes
the circuit and zeroes `failures`; a success in Closed zeroes `failures`. -/
def CircuitBreaker.recordSuccess (cb : CircuitBreaker) : CircuitBreaker :=
  let cb1 := { cb with successes := cb.successes + 1 }
  match cb1.state with
  | CircuitState.stateHalfOpen =>
      { cb1 with state := CircuitState.stateClosed, failures := 0 }
  | CircuitState.stateClosed => { cb1 with failures := 0 }
  | CircuitState.stateOpen => cb1

/-- Outcome of one `Call`: the breaker afterwards, whether the wrapped
operation was invoked (the Go code invokes it at most once per `Call` by
construction), and the error returned to the caller. -/
structure CallOutcome where
  cb : CircuitBreaker
  invoked : Bool
  err : Option String
deriving DecidableEq, Repr

/-- The body of `Call` after the state check: run the operation (whose
outcome `opErr` is supplied by the environment) and record the result. -/
def CircuitBreaker.execCall (cb : CircuitBreaker) (now : Int) (opErr : Option String) :
    CallOutcome :=
  match opErr with
  | some e => { cb := cb.recordFailure now, invoked := true, err := some e }
  | none => { cb := cb.recordSuccess, invoked := true, err := none }

/-- `Call(fn)`: in the Open state, either lazily transition to HalfOpen
(when `time.Since(lastFailureTime) > resetTimeout`, zeroing both counters)
and run the operation, or reject with the "circuit breaker is open" error
without running it.  In any other state run the operation directly. -/
def CircuitBreaker.Call (cb : CircuitBreaker) (now : Int) (opErr : Option String) :
    CallOutcome :=
  match cb.state with
  | CircuitState.stateOpen =>
      if now - cb.lastFailureTime > cb.resetTimeout then
        CircuitBreaker.execCall
          { cb with state := CircuitState.stateHalfOpen, successes := 0, failures := 0 }
          now opErr
      else
        { cb := cb, invoked := false, err := some "circuit breaker is open" }
  | _ => cb.execCall now opErr

/-- `Reset()`: force Closed and zero both counters. -/
def CircuitBreaker.Reset (cb : CircuitBreaker) : CircuitBreaker :=
  { cb with state := CircuitState.stateClosed, failures := 0, successes := 0 }

/-! ## Consumption model (`pkg/models/consumption.go`) -/

/-- `Consumption` from `consumption.go`.  The Go struct also carries a
`Timestamp` field set to `time.Now()` in the constructor and never read by
any code under verification; it is omitted here. -/
structure Consumption where
  platform : String
  model : String
  inputTokens : Int
  outputTokens : Int
  totalTokens : Int
  requestCount : Int
  startTime : Int
  endTime : Int
deriving DecidableEq, Repr

/-- `ConsumptionSummary` from `consumption.go`. -/
structure ConsumptionSummary where
  platform : String
  model : String
  totalInputTokens : Int
  totalOutputTokens : Int
  totalTokens : Int
  totalRequests : Int
  period : String
  startTime : Int
  endTime : Int
deriving DecidableEq, Repr

/-- `NewConsumption`: `TotalTokens` is derived as input + output. -/
def NewConsumption (platform model : String) (inputTokens outputTokens requestCount : Int)
    (startTime endTime : Int) : Consumption :=
  { platform := platform
    model := model
    inputTokens := inputTokens
    outputTokens := outputTokens
    totalTokens := inputTokens + outputTokens
    requestCount := requestCount
    startTime := startTime
    endTime := endTime }

/-- `NewConsumptionSummary`: all running totals start at zero. -/
def NewConsumptionSummary (platform model period : String) (startTime endTime : Int) :
    ConsumptionSummary :=
  { platform := platform
    model := model
    totalInputTokens := 0
    totalOutputTokens := 0
    totalTokens := 0
    totalRequests := 0
    period := period
    startTime := startTime
    endTime := endTime }

/-- `(*ConsumptionSummary).AddConsumption`: fold one record into the totals. -/
def ConsumptionSummary.AddConsumption (cs : ConsumptionSummary) (c : Consumption) :
    ConsumptionSummary :=
  { cs with
    totalInputTokens := cs.totalInputTokens + c.inputTokens
    totalOutputTokens := cs.totalOutputTokens + c.outputTokens
    totalTokens := cs.totalTokens + c.totalTokens
    totalRequests := cs.totalRequests + c.requestCount }

/-! ## OpenAI response shapes (`pkg/providers/provider.go`) -/

/-- `OpenAIUsageResult`: one model's record inside a bucket. -/
structure OpenAIUsageResult where
  model : String
  inputTokens : Int
  outputTokens : Int
  numModelRequests : Int
deriving DecidableEq, Repr

/-- `OpenAIUsageBucket`: one time bucket of the usage response. -/
structure OpenAIUsageBucket where
  startTime : Int
  endTime : Int
  results : List OpenAIUsageResult
deriving DecidableEq, Repr

/-- `OpenAIUsageResponse` (paginated form): data buckets plus the
pagination envelope `has_more` / `next_page`. -/
structure OpenAIUsageResponse where
  data : List OpenAIUsageBucket
  hasMore : Bool
  nextPage : String
deriving DecidableEq, Repr

/-- `OpenAICostResult` and its amount, kept for the cache's type switch. -/
structure OpenAICostResult where
  lineItem : String
  amountValue : Int
  amountCurrency : String
deriving DecidableEq, Repr

/-- `OpenAICostBucket`. -/
structure OpenAICostBucket where
  startTime : Int
  endTime : Int
  results : List OpenAICostResult
deriving DecidableEq, Repr

/-- `OpenAICostResponse` (paginated form). -/
structure OpenAICostResponse where
  data : List OpenAICostBucket
  hasMore : Bool
  nextPage : String
deriving DecidableEq, Repr

/-- The body of `GetConsumption`'s normalization loop: for each bucket and
each result, build a `Consumption` via `NewConsumption` with platform
"openai" and the bucket's time bounds. -/
def consumptionsOfResponse (resp : OpenAIUsageResponse) : List Consumption :=
  resp.data.flatMap (fun bucket =>
    bucket.results.map (fun result =>
      NewConsumption "openai" result.model result.inputTokens result.outputTokens
        result.numModelRequests bucket.startTime bucket.endTime))

/-! ## Per-model grouping of `GetConsumptionSummary` (`provider.go`) -/

/-- The distinct model names, in first-appearance order of the record
list (the order in which `modelSummaries` acquires its keys). -/
def distinctModels (cs : List Consumption) : List String :=
  cs.foldl (fun acc c => if c.model ∈ acc then acc else acc ++ [c.model]) []

/-- The summary accumulated for one model key: all records with that model,
folded by `AddConsumption` into a fresh `NewConsumptionSummary` in list
order, exactly as the grouping loop of `GetConsumptionSummary` does. -/
def summaryForModel (period : String) (startTime endTime : Int)
    (cs : List Consumption) (m : String) : ConsumptionSummary :=
  (cs.filter (fun c => c.model = m)).foldl ConsumptionSummary.AddConsumption
    (NewConsumptionSummary "openai" m period startTime endTime)

/-- The possible return values of `GetConsumptionSummary` after a
successful fetch: the Go code builds one summary per distinct model in a
`map[string]*ConsumptionSummary` and returns the FIRST summary delivered
by a `range` over that map — an iteration order Go leaves unspecified —
so any per-model summary may be returned; with no records it returns the
empty summary with model "". -/
def GetConsumptionSummaryPossible (period : String) (startTime endTime : Int)
    (cs : List Consumption) : List ConsumptionSummary :=
  match distinctModels cs with
  | [] => [NewConsumptionSummary "openai" "" period startTime endTime]
  | ms => ms.map (summaryForModel period startTime endTime cs)

/-- Folding the whole record list into a single summary (what the claimed
cross-model totals correspond to; `GetConsumptionSummary` does NOT do
this when several models are present). -/
def foldAllConsumptions (period : String) (startTime endTime : Int)
    (cs : List Consumption) : ConsumptionSummary :=
  cs.foldl ConsumptionSummary.AddConsumption
    (NewConsumptionSummary "openai" "" period startTime endTime)

/-! ## Cache key construction (`openai.go`, `getCacheKey`) -/

/-- `getCacheKey(endpoint, params)`: starting from the endpoint name,
append `":k=v"` for each parameter in the order the `range` over the Go
map delivers them.  Go does not specify (and actively randomizes) that
order, so the function is modelled over the iteration order itself:
`iter` is the sequence of key/value pairs one `range` pass produces. -/
def getCacheKey (endpoint : String) (iter : List (String × String)) : String :=
  iter.foldl (fun key kv => key ++ ":" ++ kv.1 ++ "=" ++ kv.2) endpoint

/-! ## Response cache (`openai.go`, `getFromCache` / `saveToCache`) -/

/-- The `interface{}` payload stored in a `cacheItem`: the code only ever
stores `*OpenAIUsageResponse` or `*OpenAICostResponse`, and the type
switch in `getFromCache` only recognizes those two. -/
inductive CachedData where
  | usage : OpenAIUsageResponse → CachedData
  | cost : OpenAICostResponse → CachedData
deriving DecidableEq, Repr

/-- `cacheItem`: payload plus absolute expiration instant. -/
structure CacheItem where
  data : CachedData
  expiresAt : Int
deriving DecidableEq, Repr

/-- The provider's `cache map[string]cacheItem`, as an association list
with at most one binding per key (map semantics: lookup/erase/insert by
key; list order is irrelevant to all three). -/
abbrev Cache : Type := List (String × CacheItem)

/-- Map read `o.cache[key]`. -/
def cacheLookup (cache : Cache) (key : String) : Option CacheItem :=
  (List.find? (fun p => p.1 = key) cache).map (fun p => p.2)

/-- Map delete `delete(o.cache, key)`. -/
def cacheErase (cache : Cache) (key : String) : Cache :=
  List.filter (fun p => ¬ p.1 = key) cache

/-- Map write `o.cache[key] = item`. -/
def cacheInsert (cache : Cache) (key : String) (item : CacheItem) : Cache :=
  cacheErase cache key ++ [(key, item)]

/-- Which response type the caller's `result interface{}` pointer asks
for in `getFromCache`'s type switch. -/
inductive RespType where
  | usage : RespType
  | cost : RespType
deriving DecidableEq, Repr

/-- Result of `getFromCache`: the payload delivered through the `result`
pointer (when any), the cache after the lookup (an expired entry is
deleted), and the returned `bool`. -/
structure CacheGetOutcome where
  payload : Option CachedData
  cache : Cache
  found : Bool
deriving DecidableEq, Repr

/-- `getFromCache(key, result)` at instant `now`: miss on absent key;
purge-and-miss when `time.Now().After(expiresAt)` (strictly after); on an
unexpired hit, deliver the payload only when its dynamic type matches the
requested response type, else report not found. -/
def getFromCache (cache : Cache) (now : Int) (key : String) (want : RespType) :
    CacheGetOutcome :=
  match cacheLookup cache key with
  | none => { payload := none, cache := cache, found := false }
  | some item =>
      if now > item.expiresAt then
        { payload := none, cache := cacheErase cache key, found := false }
      else
        match item.data, want with
        | CachedData.usage r, RespType.usage =>
            { payload := some (CachedData.usage r), cache := cache, found := true }
        | CachedData.cost r, RespType.cost =>
            { payload := some (CachedData.cost r), cache := cache, found := true }
        | _, _ => { payload := none, cache := cache, found := false }

/-- `saveToCache(key, data)` at instant `now`: unconditionally overwrite
with expiration `now + cacheTTL`. -/
def saveToCache (cache : Cache) (cacheTTL : Int) (now : Int) (key : String)
    (data : CachedData) : Cache :=
  cacheInsert cache key { data := data, expiresAt := now + cacheTTL }

/-! ## Retry/backoff HTTP wrapper (`RateLimitedClient.DoWithContext`) -/

/-- Outcome of one `c.client.Do(reqClone)` round trip: a transport-level
error (`err != nil`) or a response with a status code. -/
inductive AttemptResult where
  | netError : String → AttemptResult
  | response : Nat → AttemptResult
deriving DecidableEq, Repr

/-- The terminal error built after the retry loop exhausts: wrapping the
last transport error ("request failed after N attempts: %w") or citing
the last status ("request failed with status S after N attempts"). -/
inductive RetryError where
  | exhaustedNet : Nat → String → RetryError
  | exhaustedStatus : Nat → Nat → RetryError
deriving DecidableEq, Repr

/-- Result of `DoWithContext`: the response status returned to the caller
(when a response is returned at all), the error, and how many HTTP
attempts (`c.client.Do` invocations) were made. -/
structure DoOutcome where
  resp : Option Nat
  err : Option RetryError
  attempts : Nat
deriving DecidableEq, Repr

/-- The retry loop `for attempt := 0; attempt <= maxRetries; attempt++`:
each iteration performs one HTTP attempt (outcome given by the
environment as `attemptOutcome attempt`); a nil error with status < 500
returns immediately; otherwise, while retries remain, back off and retry.
Returns the last attempt's outcome and the number of attempts made.
The rate-limiter wait and the inter-attempt `ctx.Done()` check are
modelled as succeeding (an uncancelled context with an unsaturated
limiter), which is the regime all retry claims quantify over. -/
def retryLoop (attemptOutcome : Nat → AttemptResult) (attempt remaining : Nat) :
    AttemptResult × Nat :=
  let out := attemptOutcome attempt
  match out with
  | AttemptResult.response s =>
      if s < 500 then (out, attempt + 1)
      else
        match remaining with
        | 0 => (out, attempt + 1)
        | r + 1 => retryLoop attemptOutcome (attempt + 1) r
  | AttemptResult.netError _ =>
      match remaining with
      | 0 => (out, attempt + 1)
      | r + 1 => retryLoop attemptOutcome (attempt + 1) r

/-- `DoWithContext`: run the retry loop, then translate the last attempt
into the returned (response, error) pair exactly as the code after the
loop does: a <500 response is returned with nil error from inside the
loop; an exhausted transport error yields `(nil, wrapped err)`; an
exhausted ≥500 status yields the response together with a status error. -/
def DoWithContext (maxRetries : Nat) (attemptOutcome : Nat → AttemptResult) : DoOutcome :=
  match retryLoop attemptOutcome 0 maxRetries with
  | (AttemptResult.response s, n) =>
      if s < 500 then { resp := some s, err := none, attempts := n }
      else
        { resp := some s
          err := some (RetryError.exhaustedStatus s (maxRetries + 1))
          attempts := n }
  | (AttemptResult.netError e, n) =>
      { resp := none
        err := some (RetryError.exhaustedNet (maxRetries + 1) e)
        attempts := n }

/-! ## Paginated fetch (`provider.go`, `GetUsage` / `GetCosts`) -/

/-- The pagination loop of `GetUsage` (`for pageCount < maxPages`), with
`fuel` the remaining page budget (`maxPages - pageCount`).  Each
iteration issues one page request — `fetch tok` abstracts the whole
circuit-breaker/rate-limited/decoded round trip for cursor `tok` (`""`
on the first page, when no `page` parameter is sent); an error aborts
the call immediately.  On success the page's buckets are appended, then
the loop stops on `has_more=false`, on an empty `next_page` token, or on
a token already in `seenPages` (loop detection); otherwise the token is
recorded and the loop continues.  Returns the accumulated buckets (or
the propagated error) together with the number of page requests made. -/
def paginateUsage (fetch : String → Except String OpenAIUsageResponse)
    (fuel : Nat) (nextPage : String) (seenPages : List String)
    (allData : List OpenAIUsageBucket) :
    Except String (List OpenAIUsageBucket) × Nat :=
  match fuel with
  | 0 => (Except.ok allData, 0)
  | fuel' + 1 =>
      match fetch nextPage with
      | Except.error e => (Except.error e, 1)
      | Except.ok resp =>
          let acc := allData ++ resp.data
          if resp.hasMore = false then (Except.ok acc, 1)
          else if resp.nextPage = "" then (Except.ok acc, 1)
          else if seenPages.contains resp.nextPage then (Except.ok acc, 1)
          else
            let r := paginateUsage fetch fuel' resp.nextPage
              (seenPages ++ [resp.nextPage]) acc
            (r.1, r.2 + 1)

/-- The pagination phase of `GetUsage`: `maxPages := 50`, first request
with no page token, empty seen-set, empty accumulator. -/
def GetUsagePages (fetch : String → Except String OpenAIUsageResponse) :
    Except String (List OpenAIUsageBucket) :=
  (paginateUsage fetch 50 "" [] []).1

/-- Number of page requests `GetUsage`'s loop issues. -/
def GetUsageRequestCount (fetch : String → Except String OpenAIUsageResponse) : Nat :=
  (paginateUsage fetch 50 "" [] []).2

/-- The identical pagination loop of `GetCosts` (the Go code duplicates
it verbatim over `OpenAICostBucket`). -/
def paginateCosts (fetch : String → Except String OpenAICostResponse)
    (fuel : Nat) (nextPage : String) (seenPages : List String)
    (allData : List OpenAICostBucket) :
    Except String (List OpenAICostBucket) × Nat :=
  match fuel with
  | 0 => (Except.ok allData, 0)
  | fuel' + 1 =>
      match fetch nextPage with
      | Except.error e => (Except.error e, 1)
      | Except.ok resp =>
          let acc := allData ++ resp.data
          if resp.hasMore = false then (Except.ok acc, 1)
          else if resp.nextPage = "" then (Except.ok acc, 1)
          else if seenPages.contains resp.nextPage then (Except.ok acc, 1)
          else
            let r := paginateCosts fetch fuel' resp.nextPage
              (seenPages ++ [resp.nextPage]) acc
            (r.1, r.2 + 1)

/-- The pagination phase of `GetCosts`. -/
def GetCostsPages (fetch : String → Except String OpenAICostResponse) :
    Except String (List OpenAICostBucket) :=
  (paginateCosts fetch 50 "" [] []).1

/-- Number of page requests `GetCosts`'s loop issues. -/
def GetCostsRequestCount (fetch : String → Except String OpenAICostResponse) : Nat :=
  (paginateCosts fetch 50 "" [] []).2

/-- The Go pattern `var result *OpenAIUsageResponse; o.getFromCache(key,
&result)`: run the generic lookup asking for the usage type and expose
the delivered pointer, the cache afterwards, and the bool. -/
def getUsageFromCache (cache : Cache) (now : Int) (key : String) :
    Option OpenAIUsageResponse × Cache × Bool :=
  let g := getFromCache cache now key RespType.usage
  match g.payload with
  | some (CachedData.usage r) => (some r, g.cache, g.found)
  | _ => (none, g.cache, g.found)

/-- The post-cache-miss part of `GetUsage`: run the pagination loop; on
error return `(nil, err)` leaving the cache untouched; on success build
`&OpenAIUsageResponse{Data: allData}` (pagination envelope at its zero
values), store it via `saveToCache`, and return it with a nil error. -/
def fetchAndCacheUsage (cache : Cache) (cacheTTL now : Int) (cacheKey : String)
    (fetch : String → Except String OpenAIUsageResponse) :
    Except String OpenAIUsageResponse × Cache :=
  match GetUsagePages fetch with
  | Except.error e => (Except.error e, cache)
  | Except.ok allData =>
      let resp : OpenAIUsageResponse := { data := allData, hasMore := false, nextPage := "" }
      (Except.ok resp, saveToCache cache cacheTTL now cacheKey (CachedData.usage resp))

/-- `GetUsage` with the cache interaction: unless bypassing, a cache hit
returns the stored response immediately; otherwise (including after an
expired entry was purged by the lookup) fetch all pages and cache the
result under the same key. -/
def GetUsage (cache : Cache) (cacheTTL now : Int) (cacheKey : String) (bypassCache : Bool)
    (fetch : String → Except String OpenAIUsageResponse) :
    Except String OpenAIUsageResponse × Cache :=
  if bypassCache then fetchAndCacheUsage cache cacheTTL now cacheKey fetch
  else
    match getUsageFromCache cache now cacheKey with
    | (some r, cache1, true) => (Except.ok r, cache1)
    | (_, cache1, _) => fetchAndCacheUsage cache1 cacheTTL now cacheKey fetch

/-- The Go pattern `var result *OpenAICostResponse; o.getFromCache(key,
&result)` of `GetCosts`. -/
def getCostsFromCache (cache : Cache) (now : Int) (key : String) :
    Option OpenAICostResponse × Cache × Bool :=
  let g := getFromCache cache now key RespType.cost
  match g.payload with
  | some (CachedData.cost r) => (some r, g.cache, g.found)
  | _ => (none, g.cache, g.found)

/-- The post-cache-miss part of `GetCosts`, mirroring
`fetchAndCacheUsage` exactly as the Go code duplicates it. -/
def fetchAndCacheCosts (cache : Cache) (cacheTTL now : Int) (cacheKey : String)
    (fetch : String → Except String OpenAICostResponse) :
    Except String OpenAICostResponse × Cache :=
  match GetCostsPages fetch with
  | Except.error e => (Except.error e, cache)
  | Except.ok allData =>
      let resp : OpenAICostResponse := { data := allData, hasMore := false, nextPage := "" }
      (Except.ok resp, saveToCache cache cacheTTL now cacheKey (CachedData.cost resp))

/-- `GetCosts` with the cache interaction. -/
def GetCosts (cache : Cache) (cacheTTL now : Int) (cacheKey : String) (bypassCache : Bool)
    (fetch : String → Except String OpenAICostResponse) :
    Except String OpenAICostResponse × Cache :=
  if bypassCache then fetchAndCacheCosts cache cacheTTL now cacheKey fetch
  else
    match getCostsFromCache cache now cacheKey with
    | (some r, cache1, true) => (Except.ok r, cache1)
    | (_, cache1, _) => fetchAndCacheCosts cache1 cacheTTL now cacheKey fetch

/-- Whether a cached payload's dynamic type is the one the caller's
`result` pointer requests (the two arms of `getFromCache`'s type switch). -/
def CachedData.typeMatches : CachedData → RespType → Bool
  | CachedData.usage _, RespType.usage => true
  | CachedData.cost _, RespType.cost => true
  | _, _ => false

/-! ## Scenario data (spec §8, claim C1) -/

/-- Epoch seconds of 2025-08-10 00:00 UTC. -/
def scenarioStart : Int := 1754784000

/-- Epoch seconds of 2025-08-17 00:00 UTC. -/
def scenarioEnd : Int := 1755388800

/-- The upstream response of the §8 scenario: one daily bucket carrying
exactly the two model records of the claim. -/
def scenarioResponse : OpenAIUsageResponse :=
  { data := [ { startTime := scenarioStart, endTime := scenarioEnd,
                results :=
                  [ { model := "gpt-4o", inputTokens := 1872, outputTokens := 3099,
                      numModelRequests := 12 },
                    { model := "gpt-4o-mini", inputTokens := 10, outputTokens := 71,
                      numModelRequests := 1 } ] } ],
    hasMore := false, nextPage := "" }

/-- The normalized records `GetConsumption` builds from the scenario
response. -/
def scenarioConsumptions : List Consumption := consumptionsOfResponse scenarioResponse

/-- A half-open breaker with nonzero counters, used to witness the C3
theorem. -/
def cbHalfOpenSample : CircuitBreaker :=
  { state := CircuitState.stateHalfOpen, failures := 0, successes := 5,
    lastFailureTime := 0, maxFailures := 3, resetTimeout := 100, halfOpenRequests := 1 }

/-- An open breaker whose reset timeout has not elapsed at instant 120,
used to witness the C10 theorem. -/
def cbOpenSample : CircuitBreaker :=
  { state := CircuitState.stateOpen, failures := 5, successes := 2,
    lastFailureTime := 100, maxFailures := 5, resetTimeout := 60, halfOpenRequests := 1 }

/-- An empty usage response, used as a concrete cache payload. -/
def sampleUsageResp : OpenAIUsageResponse := { data := [], hasMore := false, nextPage := "" }

/-- A one-entry cache holding a usage payload that expires at instant 10. -/
def sampleCache : Cache :=
  [("k", { data := CachedData.usage sampleUsageResp, expiresAt := 10 })]

/-! ## Helper lemmas -/

/-- Deleting a key from the cache map makes its lookup miss. -/
theorem cacheErase_lookup (cache : Cache) (key : String) :
    cacheLookup (cacheErase cache key) key = none := by
  induction cache with
  | nil => rfl
  | cons p rest ih =>
      by_cases h : p.1 = key
      · rw [show cacheErase (p :: rest) key = cacheErase rest key by
          simp [cacheErase, List.filter, h]]
        exact ih
      · rw [show cacheErase (p :: rest) key = p :: cacheErase rest key by
          simp [cacheErase, List.filter, h]]
        rw [show cacheLookup (p :: cacheErase rest key) key =
            cacheLookup (cacheErase rest key) key by
          simp [cacheLookup, List.find?, h]]
        exact ih

/-- `find?` skips a prefix in which it finds nothing. -/
theorem find?_append_of_none {α : Type} (p : α → Bool) (l1 l2 : List α)
    (h : l1.find? p = none) : (l1 ++ l2).find? p = l2.find? p := by
  induction l1 with
  | nil => rfl
  | cons a t ih =>
      cases hpa : p a with
      | true => simp [List.find?, hpa] at h
      | false =>
          simp only [List.find?, hpa] at h
          simpa [List.find?, hpa] using ih h

/-- Map write followed by read of the same key. -/
theorem cacheInsert_lookup (cache : Cache) (key : String) (item : CacheItem) :
    cacheLookup (cacheInsert cache key item) key = some item := by
  have h := cacheErase_lookup cache key
  unfold cacheLookup at h ⊢
  unfold cacheInsert
  rcases hfind : List.find? (fun p => p.1 = key) (cacheErase cache key) with _ | q
  · rw [find?_append_of_none _ _ _ hfind]
    simp [List.find?]
  · rw [hfind] at h; simp at h

/-- The usage pagination loop issues at most `fuel` page requests. -/
theorem paginateUsage_count_le (fetch : String → Except String OpenAIUsageResponse)
    (fuel : Nat) (np : String) (seen : List String) (acc : List OpenAIUsageBucket) :
    (paginateUsage fetch fuel np seen acc).2 ≤ fuel := by
  induction fuel generalizing np seen acc with
  | zero => simp [paginateUsage]
  | succ n ih =>
      rw [paginateUsage]
      cases fetch np with
      | error e => simp
      | ok resp =>
          dsimp only
          split_ifs <;> simp [Nat.succ_le_succ, ih]

/-- The cost pagination loop issues at most `fuel` page requests. -/
theorem paginateCosts_count_le (fetch : String → Except String OpenAICostResponse)
    (fuel : Nat) (np : String) (seen : List String) (acc : List OpenAICostBucket) :
    (paginateCosts fetch fuel np seen acc).2 ≤ fuel := by
  induction fuel generalizing np seen acc with
  | zero => simp [paginateCosts]
  | succ n ih =>
      rw [paginateCosts]
      cases fetch np with
      | error e => simp
      | ok resp =>
          dsimp only
          split_ifs <;> simp [Nat.succ_le_succ, ih]

/-! ## Claim theorems -/

/-- C1 (counterexample): on the §8 scenario — two model records, gpt-4o
(1872/3099/12) and gpt-4o-mini (10/71/1) — NO possible return value of
`GetConsumptionSummary` has the claimed cross-model totals input=1882,
output=3170, total=5052, requests=13: the code groups per model and
returns a single model's summary. -/
theorem C1_counterexample :
    (GetConsumptionSummaryPossible "7d" scenarioStart scenarioEnd
        scenarioConsumptions).all
      (fun s => !(s.totalInputTokens == 1882 && s.totalOutputTokens == 3170 &&
                  s.totalTokens == 5052 && s.totalRequests == 13)) = true := by
  decide

/-- C1 (amended): on the §8 scenario `GetConsumptionSummary` returns one
of the two per-model summaries — gpt-4o with totals (1872, 3099, 4971, 12)
or gpt-4o-mini with totals (10, 71, 81, 1), whichever Go's map iteration
delivers first — while the claimed totals (1882, 3170, 5052, 13) are the
fold of `AddConsumption` over ALL records of the query, which the code
does not return when several models are present. -/
theorem C1_amended_per_model_summary :
    GetConsumptionSummaryPossible "7d" scenarioStart scenarioEnd scenarioConsumptions =
      [ { platform := "openai", model := "gpt-4o", totalInputTokens := 1872,
          totalOutputTokens := 3099, totalTokens := 4971, totalRequests := 12,
          period := "7d", startTime := scenarioStart, endTime := scenarioEnd },
        { platform := "openai", model := "gpt-4o-mini", totalInputTokens := 10,
          totalOutputTokens := 71, totalTokens := 81, totalRequests := 1,
          period := "7d", startTime := scenarioStart, endTime := scenarioEnd } ] ∧
    foldAllConsumptions "7d" scenarioStart scenarioEnd scenarioConsumptions =
      { platform := "openai", model := "", totalInputTokens := 1882,
        totalOutputTokens := 3170, totalTokens := 5052, totalRequests := 13,
        period := "7d", startTime := scenarioStart, endTime := scenarioEnd } := by
  constructor <;> rfl

/-- C2 (code evaluated at the failing input): the two iteration orders of
the map `{start_time:1, end_time:2}` — both orders are produced by Go's
randomized `range` over the same map — give DIFFERENT cache keys, so
`getCacheKey` is not invariant under parameter construction order even
though the two param lists hold exactly the same name=value pairs. -/
theorem C2_cache_key_order_dependent :
    List.Perm [(("start_time" : String), ("1" : String)), ("end_time", "2")]
      [("end_time", "2"), ("start_time", "1")] ∧
    getCacheKey "usage" [("start_time", "1"), ("end_time", "2")] =
      "usage:start_time=1:end_time=2" ∧
    getCacheKey "usage" [("end_time", "2"), ("start_time", "1")] =
      "usage:end_time=2:start_time=1" ∧
    ¬ getCacheKey "usage" [("start_time", "1"), ("end_time", "2")] =
        getCacheKey "usage" [("end_time", "2"), ("start_time", "1")] := by
  refine ⟨by decide, rfl, rfl, by decide⟩

/-- C3 (counterexample): drive a fresh breaker (maxFailures=3,
resetTimeout=100) through 3 failures at instant 0 and a successful trial
at instant 200: the trial transitions HalfOpen→Closed with the failure
counter reset, but the success counter is 1, NOT reset to zero — so it is
false that both counters reset on every state entry into Closed. -/
theorem C3_counterexample :
    (((((((NewCircuitBreaker 3 100).Call 0 (some "e")).cb.Call 0
        (some "e")).cb.Call 0 (some "e")).cb.Call 200 none).cb.state =
          CircuitState.stateClosed) ∧
     ((((((NewCircuitBreaker 3 100).Call 0 (some "e")).cb.Call 0
        (some "e")).cb.Call 0 (some "e")).cb.Call 200 none).cb.failures = 0) ∧
     ¬ (((((NewCircuitBreaker 3 100).Call 0 (some "e")).cb.Call 0
        (some "e")).cb.Call 0 (some "e")).cb.Call 200 none).cb.successes = 0) := by
  decide

/-- C3 (amended): on the HalfOpen→Closed transition taken when a trial
call succeeds, the consecutive-failure counter is reset to zero but the
success counter is incremented (it becomes its prior value + 1, not 0);
both counters are reset to zero by a manual `Reset`. -/
theorem C3_amended_counters_on_close (cb : CircuitBreaker) (now : Int)
    (h : cb.state = CircuitState.stateHalfOpen) :
    ((cb.Call now none).cb.state = CircuitState.stateClosed ∧
     (cb.Call now none).cb.failures = 0 ∧
     (cb.Call now none).cb.successes = cb.successes + 1) ∧
    (cb.Reset.state = CircuitState.stateClosed ∧ cb.Reset.failures = 0 ∧
     cb.Reset.successes = 0) := by
  refine ⟨?_, rfl, rfl, rfl⟩
  refine ⟨?_, ?_, ?_⟩ <;>
    simp [CircuitBreaker.Call, h, CircuitBreaker.execCall, CircuitBreaker.recordSuccess]

/-- C3 witness: the amended theorem evaluated on a concrete half-open
breaker with success counter 5: the successful trial closes the circuit
with failures 0 and successes 6. -/
theorem C3_amended_counters_on_close_witness :
    ((cbHalfOpenSample.Call 1 none).cb.state = CircuitState.stateClosed ∧
     (cbHalfOpenSample.Call 1 none).cb.failures = 0 ∧
     (cbHalfOpenSample.Call 1 none).cb.successes = cbHalfOpenSample.successes + 1) ∧
    (cbHalfOpenSample.Reset.state = CircuitState.stateClosed ∧
     cbHalfOpenSample.Reset.failures = 0 ∧ cbHalfOpenSample.Reset.successes = 0) :=
  C3_amended_counters_on_close cbHalfOpenSample 1 rfl

/-- C4: with maxFailures=3, after 3 consecutive failing `Call`s the state
is Open with failure counter 3; while the reset timeout has not elapsed a
4th `Call` rejects immediately (operation not invoked, "circuit breaker
is open" error); once it has elapsed the next `Call` invokes the
operation (exactly once — the embedding invokes at most once per `Call`
by construction) and propagates its error unmodified; a successful trial
closes the circuit with failure counter 0, a failing trial reopens it;
and in general every `Call` that invokes its operation returns the
operation's own error (or nil) unmodified. -/
theorem C4_trip_reject_halfopen_recover (rt t1 t2 t3 t4 t5 : Int) (e1 e2 e3 e4 : String)
    (h4 : ¬ t4 - t3 > rt) (h5 : t5 - t3 > rt) :
    (((((NewCircuitBreaker 3 rt).Call t1 (some e1)).cb.Call t2 (some e2)).cb.Call
        t3 (some e3)).cb.state = CircuitState.stateOpen) ∧
    (let cb3 := (((NewCircuitBreaker 3 rt).Call t1 (some e1)).cb.Call t2
        (some e2)).cb.Call t3 (some e3) |>.cb
     cb3.failures = 3 ∧
     (∀ opErr : Option String, (cb3.Call t4 opErr).invoked = false ∧
        (cb3.Call t4 opErr).err = some "circuit breaker is open") ∧
     (∀ opErr : Option String, (cb3.Call t5 opErr).invoked = true ∧
        (cb3.Call t5 opErr).err = opErr) ∧
     ((cb3.Call t5 none).cb.state = CircuitState.stateClosed ∧
        (cb3.Call t5 none).cb.failures = 0) ∧
     (cb3.Call t5 (some e4)).cb.state = CircuitState.stateOpen) ∧
    (∀ (cb : CircuitBreaker) (now : Int) (opErr : Option String),
      (cb.Call now opErr).invoked = true → (cb.Call now opErr).err = opErr) := by
  have hcb3 : (((NewCircuitBreaker 3 rt).Call t1 (some e1)).cb.Call t2
      (some e2)).cb.Call t3 (some e3) =
      { cb := { state := CircuitState.stateOpen, failures := 3, successes := 0,
                lastFailureTime := t3, maxFailures := 3, resetTimeout := rt,
                halfOpenRequests := 1 },
        invoked := true, err := some e3 } := rfl
  refine ⟨?_, ?_, ?_⟩
  · rw [hcb3]
  · rw [hcb3]
    refine ⟨rfl, ?_, ?_, ?_, ?_⟩
    · intro opErr
      constructor <;> simp [CircuitBreaker.Call, h4]
    · intro opErr
      cases opErr <;>
        simp [CircuitBreaker.Call, h5, CircuitBreaker.execCall,
          CircuitBreaker.recordFailure, CircuitBreaker.recordSuccess]
    · constructor <;>
        simp [CircuitBreaker.Call, h5, CircuitBreaker.execCall,
          CircuitBreaker.recordSuccess]
    · simp [CircuitBreaker.Call, h5, CircuitBreaker.execCall,
        CircuitBreaker.recordFailure]
  · intro cb now opErr hinv
    cases hstate : cb.state <;>
      cases opErr <;>
      simp [CircuitBreaker.Call, hstate, CircuitBreaker.execCall] at hinv ⊢ <;>
      split_ifs at hinv ⊢ <;>
      simp_all [CircuitBreaker.execCall]

/-- C4 witness: the trip scenario evaluated at resetTimeout 100, three
failures at instant 0, a rejected call at instant 50 and a trial at
instant 200: after the three failures the breaker is Open. -/
theorem C4_trip_reject_halfopen_recover_witness :
    (((((NewCircuitBreaker 3 100).Call 0 (some "a")).cb.Call 0 (some "b")).cb.Call
        0 (some "c")).cb.state = CircuitState.stateOpen) :=
  (C4_trip_reject_halfopen_recover 100 0 0 0 50 200 "a" "b" "c" "d"
    (by decide) (by decide)).1

/-- C5: against an upstream that answers every page request with
`has_more=true` and the same (nonempty) `next_page` cursor `c`, both
pagination loops terminate via cursor-loop detection after exactly two
page requests (the first request carries no token, the second carries
`c`; the second response's cursor repeats the seen value `c`), returning
the data accumulated from both pages with a nil error; and for EVERY
upstream, each loop issues at most 50 page requests. -/
theorem C5_pagination_loop_guard
    (pagedata : String → List OpenAIUsageBucket)
    (costdata : String → List OpenAICostBucket) (c : String) (hc : ¬ c = "") :
    GetUsagePages
        (fun tok => Except.ok { data := pagedata tok, hasMore := true, nextPage := c }) =
      Except.ok (pagedata "" ++ pagedata c) ∧
    GetUsageRequestCount
        (fun tok => Except.ok { data := pagedata tok, hasMore := true, nextPage := c }) = 2 ∧
    GetCostsPages
        (fun tok => Except.ok { data := costdata tok, hasMore := true, nextPage := c }) =
      Except.ok (costdata "" ++ costdata c) ∧
    GetCostsRequestCount
        (fun tok => Except.ok { data := costdata tok, hasMore := true, nextPage := c }) = 2 ∧
    (∀ fetch : String → Except String OpenAIUsageResponse,
      GetUsageRequestCount fetch ≤ 50) ∧
    (∀ fetch : String → Except String OpenAICostResponse,
      GetCostsRequestCount fetch ≤ 50) := by
  refine ⟨?_, ?_, ?_, ?_, ?_, ?_⟩
  · simp [GetUsagePages, paginateUsage, hc]
  · simp [GetUsageRequestCount, paginateUsage, hc]
  · simp [GetCostsPages, paginateCosts, hc]
  · simp [GetCostsRequestCount, paginateCosts, hc]
  · intro fetch
    exact paginateUsage_count_le fetch 50 "" [] []
  · intro fetch
    exact paginateCosts_count_le fetch 50 "" [] []

/-- C5 witness: the constant-cursor upstream with token "t" and empty
pages terminates with an ok result holding the two (empty) pages. -/
theorem C5_pagination_loop_guard_witness :
    GetUsagePages
        (fun _ => Except.ok { data := [], hasMore := true, nextPage := "t" }) =
      Except.ok [] :=
  (C5_pagination_loop_guard (fun _ => []) (fun _ => []) "t" (by decide)).1

/-- C6: a failing page request anywhere in the pagination loop makes the
whole loop return that error at once, discarding every bucket
accumulated so far (for usage and for costs alike); consequently
`GetUsage`/`GetCosts` (whenever the fetch path is taken: bypassing, or a
cache miss) return nil data with the propagated error and leave the
cache exactly as the lookup left it — nothing is stored for the key. -/
theorem C6_fetch_failure_aborts
    (fetch : String → Except String OpenAIUsageResponse)
    (fetchc : String → Except String OpenAICostResponse)
    (e ec : String) (cache : Cache) (ttl now : Int) (key : String)
    (hfail : GetUsagePages fetch = Except.error e)
    (hfailc : GetCostsPages fetchc = Except.error ec) :
    (∀ (fuel : Nat) (np : String) (seen : List String)
        (acc : List OpenAIUsageBucket) (e' : String),
      fetch np = Except.error e' →
      paginateUsage fetch (fuel + 1) np seen acc = (Except.error e', 1)) ∧
    (∀ (fuel : Nat) (np : String) (seen : List String)
        (acc : List OpenAICostBucket) (e' : String),
      fetchc np = Except.error e' →
      paginateCosts fetchc (fuel + 1) np seen acc = (Except.error e', 1)) ∧
    GetUsage cache ttl now key true fetch = (Except.error e, cache) ∧
    ((getUsageFromCache cache now key).2.2 = false →
      GetUsage cache ttl now key false fetch =
        (Except.error e, (getUsageFromCache cache now key).2.1)) ∧
    GetCosts cache ttl now key true fetchc = (Except.error ec, cache) ∧
    ((getCostsFromCache cache now key).2.2 = false →
      GetCosts cache ttl now key false fetchc =
        (Except.error ec, (getCostsFromCache cache now key).2.1)) := by
  refine ⟨?_, ?_, ?_, ?_, ?_, ?_⟩
  · intro fuel np seen acc e' herr
    rw [paginateUsage, herr]
  · intro fuel np seen acc e' herr
    rw [paginateCosts, herr]
  · simp [GetUsage, fetchAndCacheUsage, hfail]
  · intro hmiss
    rcases hget : getUsageFromCache cache now key with ⟨pay, cache1, found⟩
    simp [hget] at hmiss
    subst hmiss
    cases pay <;> simp [GetUsage, hget, fetchAndCacheUsage, hfail]
  · simp [GetCosts, fetchAndCacheCosts, hfailc]
  · intro hmiss
    rcases hget : getCostsFromCache cache now key with ⟨pay, cache1, found⟩
    simp [hget] at hmiss
    subst hmiss
    cases pay <;> simp [GetCosts, hget, fetchAndCacheCosts, hfailc]

/-- C6 witness: an upstream whose first page request fails with "boom"
makes `GetUsage` (bypassing an empty cache) return the error and the
unchanged empty cache. -/
theorem C6_fetch_failure_aborts_witness :
    GetUsage [] 300 0 "k" true (fun _ => Except.error "boom") =
      (Except.error "boom", []) :=
  (C6_fetch_failure_aborts (fun _ => Except.error "boom")
    (fun _ => Except.error "boom") "boom" "boom" [] 300 0 "k" rfl rfl).2.2.1

/-- C7: with maxRetries=3, a request whose every attempt fails with a
transport-level error makes `DoWithContext` perform exactly 4 HTTP
attempts (indices 0..3) and return no response together with the
terminal error wrapping the 4th (last) attempt's underlying failure. -/
theorem C7_retry_exhaustion (errs : Nat → String) :
    DoWithContext 3 (fun i => AttemptResult.netError (errs i)) =
      { resp := none, err := some (RetryError.exhaustedNet 4 (errs 3)),
        attempts := 4 } := rfl

/-- C8: whenever the first attempt completes without a transport error
and its status is < 500 (any 4xx such as 404, and also 429), the
response is returned with a nil error after exactly one attempt, for
every configured retry count. -/
theorem C8_no_retry_below_500 (maxRetries : Nat) (f : Nat → AttemptResult) (s : Nat)
    (h0 : f 0 = AttemptResult.response s) (hs : s < 500) :
    DoWithContext maxRetries f = { resp := some s, err := none, attempts := 1 } := by
  unfold DoWithContext retryLoop
  simp [h0, hs]

/-- C8 witness: an operation returning HTTP 404 under the default
maxRetries=3 is attempted exactly once and returned without error. -/
theorem C8_no_retry_below_500_witness :
    DoWithContext 3 (fun _ => AttemptResult.response 404) =
      { resp := some 404, err := none, attempts := 1 } :=
  C8_no_retry_below_500 3 (fun _ => AttemptResult.response 404) 404 rfl (by decide)

/-- C9: for a key bound to some entry, (a) if the current time exceeds
the entry's expiration the lookup reports found=false, deletes the entry
(the post-lookup cache misses on the key), and delivers no payload;
(b) if the entry is unexpired and its payload is of the requested
response type, the lookup delivers exactly the stored payload with
found=true and leaves the cache unchanged; and (c) `saveToCache` stores
under the key an entry whose expiration is now + TTL. -/
theorem C9_cache_ttl_expiry (cache : Cache) (key : String) (item : CacheItem)
    (want : RespType) (now ttl t0 : Int) (d : CachedData)
    (hlook : cacheLookup cache key = some item) :
    (now > item.expiresAt →
      getFromCache cache now key want =
        { payload := none, cache := cacheErase cache key, found := false } ∧
      cacheLookup (getFromCache cache now key want).cache key = none) ∧
    (¬ now > item.expiresAt → item.data.typeMatches want = true →
      getFromCache cache now key want =
        { payload := some item.data, cache := cache, found := true }) ∧
    cacheLookup (saveToCache cache ttl t0 key d) key =
      some { data := d, expiresAt := t0 + ttl } := by
  refine ⟨?_, ?_, ?_⟩
  · intro hexp
    constructor
    · simp [getFromCache, hlook, hexp]
    · simp [getFromCache, hlook, hexp, cacheErase_lookup]
  · intro hexp hmatch
    cases hd : item.data <;> cases want <;>
      simp [CachedData.typeMatches, hd] at hmatch <;>
      simp [getFromCache, hlook, hexp, hd]
  · exact cacheInsert_lookup cache key _

/-- C9 witness: on the one-entry sample cache (entry under "k" expiring
at 10), an unexpired lookup at instant 5 requesting the usage type
returns the stored payload with found=true and an unchanged cache. -/
theorem C9_cache_ttl_expiry_witness :
    getFromCache sampleCache 5 "k" RespType.usage =
      { payload := some (CachedData.usage sampleUsageResp), cache := sampleCache,
        found := true } :=
  ((C9_cache_ttl_expiry sampleCache "k"
      { data := CachedData.usage sampleUsageResp, expiresAt := 10 }
      RespType.usage 5 300 0 (CachedData.usage sampleUsageResp) rfl).2.1
    (by decide) rfl)

/-- C10: a `Call` on an Open breaker whose reset timeout has not yet
elapsed returns the "circuit breaker is open" error without invoking the
operation and returns the breaker record exactly as it was — state,
failure counter, success counter and last-failure timestamp included. -/
theorem C10_open_rejects_unchanged (cb : CircuitBreaker) (now : Int) (opErr : Option String)
    (hstate : cb.state = CircuitState.stateOpen)
    (htime : ¬ now - cb.lastFailureTime > cb.resetTimeout) :
    cb.Call now opErr =
      { cb := cb, invoked := false, err := some "circuit breaker is open" } := by
  simp [CircuitBreaker.Call, hstate, htime]

/-- C10 witness: the frame property evaluated on a concrete open breaker
(last failure at 100, timeout 60) called at instant 120. -/
theorem C10_open_rejects_unchanged_witness :
    cbOpenSample.Call 120 none =
      { cb := cbOpenSample, invoked := false, err := some "circuit breaker is open" } :=
  C10_open_rejects_unchanged cbOpenSample 120 none rfl (by decide)
